import Mathlib

/-!
Shallow embedding of the two GPU resource wrappers of the VkTexturedCube3D
repository: the linear buffer wrapper `BufferGPU` (src/Code/BufferGPU.cpp) and
the image wrapper `TextureGPU` (src/Code/TextureGPU.cpp).

Opaque Vulkan handles are modelled as natural numbers.  The logical device is
modelled as an oracle (`DeviceOracle`) assigning to every creation / query call
the pair of the VkResult it returns and the handle or value it writes through
its out-parameter; the wrappers' constructors and destructors are modelled as
functions that also emit the list of Vulkan API calls they perform (`ApiCall`),
and the two `Store` member functions as functions that append recorded GPU
commands (`Command`) to a caller-owned command buffer, returning the post-call
state of the wrapper object together with the grown command buffer.

C `int` parameters are modelled as `Int`; the implicit conversions to the
unsigned Vulkan field types `uint32_t` / `VkDeviceSize` are modelled by
reduction modulo 2^32 / 2^64 (`asUInt32` / `asUInt64`).
-/

/-! Vulkan enumeration and flag constants, numeric values from vulkan_core.h. -/

def VK_MEMORY_PROPERTY_DEVICE_LOCAL_BIT : Nat := 1

def VK_ACCESS_TRANSFER_WRITE_BIT : Nat := 4096

def VK_IMAGE_LAYOUT_PREINITIALIZED : Nat := 8

def VK_IMAGE_LAYOUT_TRANSFER_DST_OPTIMAL : Nat := 7

def VK_IMAGE_LAYOUT_SHADER_READ_ONLY_OPTIMAL : Nat := 5

def VK_PIPELINE_STAGE_TOP_OF_PIPE_BIT : Nat := 1

def VK_PIPELINE_STAGE_TRANSFER_BIT : Nat := 4096

def VK_PIPELINE_STAGE_FRAGMENT_SHADER_BIT : Nat := 128

def VK_IMAGE_VIEW_TYPE_2D : Nat := 1

def VK_COMPONENT_SWIZZLE_R : Nat := 3

def VK_COMPONENT_SWIZZLE_G : Nat := 4

def VK_COMPONENT_SWIZZLE_B : Nat := 5

def VK_COMPONENT_SWIZZLE_A : Nat := 6

/-- Conversion of a C `int` value to a `uint32_t` field. -/
def asUInt32 (x : Int) : Nat := (x % (2 ^ 32 : Int)).toNat

/-- Conversion of a C `int` value to a `VkDeviceSize` (`uint64_t`) field. -/
def asUInt64 (x : Int) : Nat := (x % (2 ^ 64 : Int)).toNat

/-! Vulkan value structures, fields restricted to the ones this code touches. -/

structure VkMemoryType where
  propertyFlags : Nat
  deriving DecidableEq

structure VkPhysicalDeviceMemoryProperties where
  memoryTypes : List VkMemoryType
  deriving DecidableEq

structure VkMemoryRequirements where
  size : Nat
  alignment : Nat
  memoryTypeBits : Nat
  deriving DecidableEq

structure VkMemoryAllocateInfo where
  allocationSize : Nat
  memoryTypeIndex : Nat
  deriving DecidableEq

structure VkBufferCreateInfo where
  size : Nat
  usage : Nat
  deriving DecidableEq

structure VkExtent3D where
  width : Nat
  height : Nat
  depth : Nat
  deriving DecidableEq

structure VkImageCreateInfo where
  format : Nat
  extent : VkExtent3D
  tiling : Nat
  usage : Nat
  initialLayout : Nat
  deriving DecidableEq

structure VkComponentMapping where
  r : Nat
  g : Nat
  b : Nat
  a : Nat
  deriving DecidableEq

structure VkImageSubresourceRange where
  aspectMask : Nat
  baseMipLevel : Nat
  levelCount : Nat
  baseArrayLayer : Nat
  layerCount : Nat
  deriving DecidableEq

structure VkImageViewCreateInfo where
  viewType : Nat
  format : Nat
  components : VkComponentMapping
  subresourceRange : VkImageSubresourceRange
  image : Nat
  deriving DecidableEq

structure VkImageMemoryBarrier where
  srcAccessMask : Nat
  dstAccessMask : Nat
  oldLayout : Nat
  newLayout : Nat
  image : Nat
  subresourceRange : VkImageSubresourceRange
  deriving DecidableEq

structure VkBufferCopy where
  srcOffset : Nat
  dstOffset : Nat
  size : Nat
  deriving DecidableEq

structure VkImageSubresourceLayers where
  aspectMask : Nat
  mipLevel : Nat
  baseArrayLayer : Nat
  layerCount : Nat
  deriving DecidableEq

structure VkOffset3D where
  x : Nat
  y : Nat
  z : Nat
  deriving DecidableEq

structure VkBufferImageCopy where
  bufferOffset : Nat
  bufferRowLength : Nat
  bufferImageHeight : Nat
  imageSubresource : VkImageSubresourceLayers
  imageOffset : VkOffset3D
  imageExtent : VkExtent3D
  deriving DecidableEq

/-- A GPU command recorded into a command buffer by `vkCmd...` calls.
`pipelineBarrier` keeps the source and destination stage masks, the dependency
flags and the image memory barriers (the code always passes zero global and
zero buffer memory barriers, so those two empty arrays are not represented). -/
inductive Command where
  | pipelineBarrier (srcStageMask : Nat) (dstStageMask : Nat) (dependencyFlags : Nat)
      (imageMemoryBarriers : List VkImageMemoryBarrier)
  | copyBuffer (srcBuffer : Nat) (dstBuffer : Nat) (regions : List VkBufferCopy)
  | copyBufferToImage (srcBuffer : Nat) (dstImage : Nat) (dstImageLayout : Nat)
      (regions : List VkBufferImageCopy)
  deriving DecidableEq

/-- A Vulkan API call performed directly on the device by a constructor or a
destructor.  Creation calls record the handle the device returned. -/
inductive ApiCall where
  | createBuffer (info : VkBufferCreateInfo) (handle : Nat)
  | getBufferMemoryRequirements (buffer : Nat)
  | allocateMemory (info : VkMemoryAllocateInfo) (handle : Nat)
  | bindBufferMemory (buffer : Nat) (memory : Nat) (offset : Nat)
  | createImage (info : VkImageCreateInfo) (handle : Nat)
  | getImageMemoryRequirements (image : Nat)
  | bindImageMemory (image : Nat) (memory : Nat) (offset : Nat)
  | createImageView (info : VkImageViewCreateInfo) (handle : Nat)
  | destroyBuffer (buffer : Nat)
  | freeMemory (memory : Nat)
  | destroyImage (image : Nat)
  | destroyImageView (view : Nat)
  deriving DecidableEq

/-- The kind of an API call, forgetting its arguments. -/
inductive CallKind where
  | createBuffer
  | getBufferMemoryRequirements
  | allocateMemory
  | bindBufferMemory
  | createImage
  | getImageMemoryRequirements
  | bindImageMemory
  | createImageView
  | destroyBuffer
  | freeMemory
  | destroyImage
  | destroyImageView
  deriving DecidableEq

def ApiCall.kind : ApiCall → CallKind
  | .createBuffer _ _ => .createBuffer
  | .getBufferMemoryRequirements _ => .getBufferMemoryRequirements
  | .allocateMemory _ _ => .allocateMemory
  | .bindBufferMemory _ _ _ => .bindBufferMemory
  | .createImage _ _ => .createImage
  | .getImageMemoryRequirements _ => .getImageMemoryRequirements
  | .bindImageMemory _ _ _ => .bindImageMemory
  | .createImageView _ _ => .createImageView
  | .destroyBuffer _ => .destroyBuffer
  | .freeMemory _ => .freeMemory
  | .destroyImage _ => .destroyImage
  | .destroyImageView _ => .destroyImageView

/-- Index of the first call of kind `k` in a trace. -/
def callIdx (tr : List ApiCall) (k : CallKind) : Nat :=
  tr.findIdx (fun c => c.kind == k)

/-- The memory-type index written into the first `vkAllocateMemory` call of a
trace, if any. -/
def allocIndex : List ApiCall → Option Nat
  | [] => none
  | .allocateMemory info _ :: _ => some info.memoryTypeIndex
  | _ :: rest => allocIndex rest

/-- VkResult return codes, 0 meaning VK_SUCCESS. -/
def VkResult : Type := Int

/-- Behaviour of the logical device: for each Vulkan call the wrappers make,
the VkResult the call returns together with the handle or value it produces.
`vkBind...` calls produce nothing beyond their VkResult. -/
structure DeviceOracle where
  createBuffer : VkBufferCreateInfo → VkResult × Nat
  getBufferMemoryRequirements : Nat → VkMemoryRequirements
  allocateMemory : VkMemoryAllocateInfo → VkResult × Nat
  bindBufferMemory : Nat → Nat → Nat → VkResult
  createImage : VkImageCreateInfo → VkResult × Nat
  getImageMemoryRequirements : Nat → VkMemoryRequirements
  bindImageMemory : Nat → Nat → Nat → VkResult
  createImageView : VkImageViewCreateInfo → VkResult × Nat

/-- Modelled from the spec: helper scanning the memory types.  The repository
calls `Helper::memory_type_from_properties` whose definition (Helper.cpp /
Helper.h) is not under src/; per the spec the helper "selects a memory-type
index from memoryProperties whose flags include device-local and whose bit is
set in the requirement bitmask — fails fatally (aborts resource creation) if no
such type exists".  This function scans the list from index `i` upward and
returns the first index whose bit is set in `typeBits` and whose property flags
contain every bit of `mask`. -/
def findMemoryTypeFrom : List VkMemoryType → Nat → Nat → Nat → Option Nat
  | [], _, _, _ => none
  | t :: rest, i, typeBits, mask =>
    if typeBits.testBit i ∧ t.propertyFlags &&& mask = mask then some i
    else findMemoryTypeFrom rest (i + 1) typeBits mask

/-- Modelled from the spec: `Helper::memory_type_from_properties` (its source,
Helper.cpp, is not under src/).  `none` models the fatal failure ("aborts
resource creation") the spec prescribes when no memory type matches. -/
def memory_type_from_properties (memory_properties : VkPhysicalDeviceMemoryProperties)
    (typeBits : Nat) (requirements_mask : Nat) : Option Nat :=
  findMemoryTypeFrom memory_properties.memoryTypes 0 typeBits requirements_mask

/-- Memory type `i` of the snapshot satisfies both selection conditions:
its bit is set in the requirement bitmask and its flags include device-local. -/
def compatibleMemoryType (props : VkPhysicalDeviceMemoryProperties)
    (typeBits : Nat) (i : Nat) : Prop :=
  i < props.memoryTypes.length ∧ typeBits.testBit i ∧
    (props.memoryTypes.getD i ⟨0⟩).propertyFlags &&& VK_MEMORY_PROPERTY_DEVICE_LOCAL_BIT =
      VK_MEMORY_PROPERTY_DEVICE_LOCAL_BIT

/-- State of a `BufferGPU` object (BufferGPU.h): saved device handle, buffer
handle, memory handle. -/
structure BufferGPU where
  device : Nat
  buffer : Nat
  memory : Nat
  deriving DecidableEq

/-- State of a `TextureGPU` object (TextureGPU.h): saved device handle, image,
memory and view handles, and the cached `VkImageViewCreateInfo`. -/
structure TextureGPU where
  device : Nat
  image : Nat
  memory : Nat
  imageView : Nat
  viewCreateInfo : VkImageViewCreateInfo
  deriving DecidableEq

/-- `BufferGPU::BufferGPU` (src/Code/BufferGPU.cpp): create the buffer, query
its memory requirements, pick a device-local memory type, allocate, bind at
offset 0.  Returns the constructed object and the trace of device calls, or
`none` when the memory-type lookup fails fatally. -/
def BufferGPU_construct (dev : DeviceOracle) (d : Nat)
    (memory_properties : VkPhysicalDeviceMemoryProperties)
    (info : VkBufferCreateInfo) : Option (BufferGPU × List ApiCall) :=
  let device := d
  let buffer := (dev.createBuffer info).2
  let mem_reqs := dev.getBufferMemoryRequirements buffer
  match memory_type_from_properties memory_properties mem_reqs.memoryTypeBits
      VK_MEMORY_PROPERTY_DEVICE_LOCAL_BIT with
  | none => none
  | some idx =>
    let memAllocInfo : VkMemoryAllocateInfo :=
      { allocationSize := mem_reqs.size, memoryTypeIndex := idx }
    let memory := (dev.allocateMemory memAllocInfo).2
    some ({ device := device, buffer := buffer, memory := memory },
      [ApiCall.createBuffer info buffer,
       ApiCall.getBufferMemoryRequirements buffer,
       ApiCall.allocateMemory memAllocInfo memory,
       ApiCall.bindBufferMemory buffer memory 0])

/-- `BufferGPU::~BufferGPU` (src/Code/BufferGPU.cpp): destroy the buffer, then
free the memory. -/
def BufferGPU_destroy (b : BufferGPU) : List ApiCall :=
  [ApiCall.destroyBuffer b.buffer, ApiCall.freeMemory b.memory]

/-- `BufferGPU::Store` (src/Code/BufferGPU.cpp): build a `VkBufferCopy` whose
only explicitly set field is `size` and record a single `vkCmdCopyBuffer` into
the caller's command buffer.  Returns the post-call object state and the grown
command buffer. -/
def BufferGPU_StoreR (b : BufferGPU) (cmd : List Command) (cpuBuffer : Nat)
    (size : Int) : BufferGPU × List Command :=
  let copyRegion : VkBufferCopy := { srcOffset := 0, dstOffset := 0, size := asUInt64 size }
  ({ device := b.device, buffer := b.buffer, memory := b.memory },
   cmd ++ [Command.copyBuffer cpuBuffer b.buffer [copyRegion]])

/-- The command buffer produced by `BufferGPU::Store`. -/
def BufferGPU_Store (b : BufferGPU) (cmd : List Command) (cpuBuffer : Nat)
    (size : Int) : List Command :=
  (BufferGPU_StoreR b cmd cpuBuffer size).2

/-- `TextureGPU::TextureGPU` (src/Code/TextureGPU.cpp): create the image, query
its memory requirements, pick a device-local memory type, allocate, bind at
offset 0, build the 2D view info (identity component swizzles, the supplied
aspect, mip 0 / 1 level, layer 0 / 1 layer), create the view and cache the
view info.  Returns the object and the trace of device calls, or `none` when
the memory-type lookup fails fatally. -/
def TextureGPU_construct (dev : DeviceOracle) (d : Nat)
    (memory_properties : VkPhysicalDeviceMemoryProperties)
    (image_create_info : VkImageCreateInfo) (aspect : Nat) :
    Option (TextureGPU × List ApiCall) :=
  let device := d
  let image := (dev.createImage image_create_info).2
  let mem_reqs := dev.getImageMemoryRequirements image
  match memory_type_from_properties memory_properties mem_reqs.memoryTypeBits
      VK_MEMORY_PROPERTY_DEVICE_LOCAL_BIT with
  | none => none
  | some idx =>
    let memAllocInfo : VkMemoryAllocateInfo :=
      { allocationSize := mem_reqs.size, memoryTypeIndex := idx }
    let memory := (dev.allocateMemory memAllocInfo).2
    let viewInfo : VkImageViewCreateInfo :=
      { viewType := VK_IMAGE_VIEW_TYPE_2D
        format := image_create_info.format
        components := { r := VK_COMPONENT_SWIZZLE_R, g := VK_COMPONENT_SWIZZLE_G,
                        b := VK_COMPONENT_SWIZZLE_B, a := VK_COMPONENT_SWIZZLE_A }
        subresourceRange := { aspectMask := aspect, baseMipLevel := 0, levelCount := 1,
                              baseArrayLayer := 0, layerCount := 1 }
        image := image }
    let imageView := (dev.createImageView viewInfo).2
    some ({ device := device, image := image, memory := memory,
            imageView := imageView, viewCreateInfo := viewInfo },
      [ApiCall.createImage image_create_info image,
       ApiCall.getImageMemoryRequirements image,
       ApiCall.allocateMemory memAllocInfo memory,
       ApiCall.bindImageMemory image memory 0,
       ApiCall.createImageView viewInfo imageView])

/-- `TextureGPU::~TextureGPU` (src/Code/TextureGPU.cpp): free the memory first,
then destroy the image, then destroy the image view. -/
def TextureGPU_destroy (t : TextureGPU) : List ApiCall :=
  [ApiCall.freeMemory t.memory, ApiCall.destroyImage t.image,
   ApiCall.destroyImageView t.imageView]

/-- `TextureGPU::Store` (src/Code/TextureGPU.cpp): record the pre-transition
image memory barrier (top-of-pipe to transfer), the buffer-to-image copy, and
the post-transition barrier (transfer to fragment-shader) into the caller's
command buffer; the second barrier reuses the first barrier structure with the
access masks and layouts overwritten.  Returns the post-call object state and
the grown command buffer. -/
def TextureGPU_StoreR (t : TextureGPU) (cmd : List Command) (cpuBuffer : Nat)
    (width : Int) (height : Int) : TextureGPU × List Command :=
  let image_memory_barrier : VkImageMemoryBarrier :=
    { srcAccessMask := 0
      dstAccessMask := VK_ACCESS_TRANSFER_WRITE_BIT
      oldLayout := VK_IMAGE_LAYOUT_PREINITIALIZED
      newLayout := VK_IMAGE_LAYOUT_TRANSFER_DST_OPTIMAL
      image := t.viewCreateInfo.image
      subresourceRange := t.viewCreateInfo.subresourceRange }
  let copy_region : VkBufferImageCopy :=
    { bufferOffset := 0
      bufferRowLength := asUInt32 width
      bufferImageHeight := asUInt32 height
      imageSubresource := { aspectMask := t.viewCreateInfo.subresourceRange.aspectMask,
                            mipLevel := 0, baseArrayLayer := 0, layerCount := 1 }
      imageOffset := { x := 0, y := 0, z := 0 }
      imageExtent := { width := asUInt32 width, height := asUInt32 height, depth := 1 } }
  let second_barrier : VkImageMemoryBarrier :=
    { image_memory_barrier with
      srcAccessMask := VK_ACCESS_TRANSFER_WRITE_BIT
      dstAccessMask := 0
      oldLayout := VK_IMAGE_LAYOUT_TRANSFER_DST_OPTIMAL
      newLayout := VK_IMAGE_LAYOUT_SHADER_READ_ONLY_OPTIMAL }
  ({ device := t.device, image := t.image, memory := t.memory,
     imageView := t.imageView, viewCreateInfo := t.viewCreateInfo },
   cmd ++
    [Command.pipelineBarrier VK_PIPELINE_STAGE_TOP_OF_PIPE_BIT
       VK_PIPELINE_STAGE_TRANSFER_BIT 0 [image_memory_barrier],
     Command.copyBufferToImage cpuBuffer t.image
       VK_IMAGE_LAYOUT_TRANSFER_DST_OPTIMAL [copy_region],
     Command.pipelineBarrier VK_PIPELINE_STAGE_TRANSFER_BIT
       VK_PIPELINE_STAGE_FRAGMENT_SHADER_BIT 0 [second_barrier]])

/-- The command buffer produced by `TextureGPU::Store`. -/
def TextureGPU_Store (t : TextureGPU) (cmd : List Command) (cpuBuffer : Nat)
    (width : Int) (height : Int) : List Command :=
  (TextureGPU_StoreR t cmd cpuBuffer width height).2

/-! Concrete sample inputs, used by witnesses and counterexamples. -/

/-- A sample device oracle: every call succeeds (VkResult 0) and returns a
fixed fresh handle per call kind. -/
def dev0 : DeviceOracle where
  createBuffer := fun _ => ((0 : Int), 10)
  getBufferMemoryRequirements := fun _ => { size := 1024, alignment := 4, memoryTypeBits := 3 }
  allocateMemory := fun _ => ((0 : Int), 11)
  bindBufferMemory := fun _ _ _ => (0 : Int)
  createImage := fun _ => ((0 : Int), 20)
  getImageMemoryRequirements := fun _ => { size := 4096, alignment := 4, memoryTypeBits := 3 }
  bindImageMemory := fun _ _ _ => (0 : Int)
  createImageView := fun _ => ((0 : Int), 22)

/-- Same handles and memory requirements as `dev0`, but every call now reports
a failing VkResult (-1, VK_ERROR_OUT_OF_HOST_MEMORY). -/
def dev0F : DeviceOracle where
  createBuffer := fun _ => ((-1 : Int), 10)
  getBufferMemoryRequirements := fun _ => { size := 1024, alignment := 4, memoryTypeBits := 3 }
  allocateMemory := fun _ => ((-1 : Int), 11)
  bindBufferMemory := fun _ _ _ => (-1 : Int)
  createImage := fun _ => ((-1 : Int), 20)
  getImageMemoryRequirements := fun _ => { size := 4096, alignment := 4, memoryTypeBits := 3 }
  bindImageMemory := fun _ _ _ => (-1 : Int)
  createImageView := fun _ => ((-1 : Int), 22)

/-- A snapshot with a single device-local memory type. -/
def props0 : VkPhysicalDeviceMemoryProperties := { memoryTypes := [{ propertyFlags := 1 }] }

/-- A snapshot whose single memory type has no device-local flag. -/
def propsBad : VkPhysicalDeviceMemoryProperties := { memoryTypes := [{ propertyFlags := 0 }] }

def binfo0 : VkBufferCreateInfo := { size := 1024, usage := 7 }

def iinfo0 : VkImageCreateInfo :=
  { format := 37, extent := { width := 256, height := 256, depth := 1 },
    tiling := 0, usage := 6, initialLayout := VK_IMAGE_LAYOUT_PREINITIALIZED }

/-- The object `BufferGPU_construct dev0 1 props0 binfo0` produces. -/
def buf0 : BufferGPU := { device := 1, buffer := 10, memory := 11 }

/-- The trace `BufferGPU_construct dev0 1 props0 binfo0` produces. -/
def bufTrace0 : List ApiCall :=
  [ApiCall.createBuffer binfo0 10,
   ApiCall.getBufferMemoryRequirements 10,
   ApiCall.allocateMemory { allocationSize := 1024, memoryTypeIndex := 0 } 11,
   ApiCall.bindBufferMemory 10 11 0]

/-- The cached view info `TextureGPU_construct dev0 1 props0 iinfo0 1` builds. -/
def viewInfo0 : VkImageViewCreateInfo :=
  { viewType := VK_IMAGE_VIEW_TYPE_2D, format := 37,
    components := { r := 3, g := 4, b := 5, a := 6 },
    subresourceRange := { aspectMask := 1, baseMipLevel := 0, levelCount := 1,
                          baseArrayLayer := 0, layerCount := 1 },
    image := 20 }

/-- The object `TextureGPU_construct dev0 1 props0 iinfo0 1` produces. -/
def tex0 : TextureGPU :=
  { device := 1, image := 20, memory := 11, imageView := 22, viewCreateInfo := viewInfo0 }

/-- The trace `TextureGPU_construct dev0 1 props0 iinfo0 1` produces. -/
def texTrace0 : List ApiCall :=
  [ApiCall.createImage iinfo0 20,
   ApiCall.getImageMemoryRequirements 20,
   ApiCall.allocateMemory { allocationSize := 4096, memoryTypeIndex := 0 } 11,
   ApiCall.bindImageMemory 20 11 0,
   ApiCall.createImageView viewInfo0 22]

/-! Arithmetic helpers for the C int to unsigned conversions. -/

theorem asUInt32_eq_toNat (x : Int) (h0 : 0 ≤ x) (h : x < 2 ^ 32) :
    asUInt32 x = x.toNat := by
  unfold asUInt32
  rw [Int.emod_eq_of_lt h0 h]

theorem asUInt64_eq_toNat (x : Int) (h0 : 0 ≤ x) (h : x < 2 ^ 64) :
    asUInt64 x = x.toNat := by
  unfold asUInt64
  rw [Int.emod_eq_of_lt h0 h]

/-! Claim theorems. -/

/-- C1: every call to `TextureGPU::Store` appends exactly three commands to the
command buffer, in order: a pipeline barrier scheduled from top-of-pipe to
transfer carrying one image memory barrier whose access mask goes from 0 to
transfer-write and whose layout goes from preinitialized to
transfer-destination-optimal; then exactly one buffer-to-image copy; then a
pipeline barrier scheduled from transfer to fragment-shader carrying one image
memory barrier whose access mask goes from transfer-write to 0 and whose layout
goes from transfer-destination-optimal to shader-read-only-optimal.  The list
order makes the first barrier strictly precede the copy and the copy strictly
precede the second barrier. -/
theorem textureStore_barrier_copy_barrier (t : TextureGPU) (cmd : List Command)
    (cpuBuffer : Nat) (width height : Int) :
    ∃ b1 b2 regions,
      TextureGPU_Store t cmd cpuBuffer width height =
        cmd ++
          [Command.pipelineBarrier VK_PIPELINE_STAGE_TOP_OF_PIPE_BIT
             VK_PIPELINE_STAGE_TRANSFER_BIT 0 [b1],
           Command.copyBufferToImage cpuBuffer t.image
             VK_IMAGE_LAYOUT_TRANSFER_DST_OPTIMAL regions,
           Command.pipelineBarrier VK_PIPELINE_STAGE_TRANSFER_BIT
             VK_PIPELINE_STAGE_FRAGMENT_SHADER_BIT 0 [b2]] ∧
      b1.srcAccessMask = 0 ∧
      b1.dstAccessMask = VK_ACCESS_TRANSFER_WRITE_BIT ∧
      b1.oldLayout = VK_IMAGE_LAYOUT_PREINITIALIZED ∧
      b1.newLayout = VK_IMAGE_LAYOUT_TRANSFER_DST_OPTIMAL ∧
      b2.srcAccessMask = VK_ACCESS_TRANSFER_WRITE_BIT ∧
      b2.dstAccessMask = 0 ∧
      b2.oldLayout = VK_IMAGE_LAYOUT_TRANSFER_DST_OPTIMAL ∧
      b2.newLayout = VK_IMAGE_LAYOUT_SHADER_READ_ONLY_OPTIMAL ∧
      regions.length = 1 := by
  refine ⟨_, _, _, rfl, rfl, rfl, rfl, rfl, rfl, rfl, rfl, rfl, rfl⟩

/-- C6: every call to `BufferGPU::Store` appends exactly one region-copy
command, with source offset 0, destination offset 0 and the given size; this
holds for every size argument, with no reference to the allocated size (first
conjunct), and for every non-negative C int the recorded copy size equals the
given `sizeInBytes` exactly (second conjunct). -/
theorem bufferStore_single_copy (b : BufferGPU) (cmd : List Command)
    (cpuBuffer : Nat) (size : Int) (h0 : 0 ≤ size) (h1 : size < 2 ^ 31) :
    (∀ s : Int, BufferGPU_Store b cmd cpuBuffer s =
        cmd ++ [Command.copyBuffer cpuBuffer b.buffer
          [{ srcOffset := 0, dstOffset := 0, size := asUInt64 s }]]) ∧
      BufferGPU_Store b cmd cpuBuffer size =
        cmd ++ [Command.copyBuffer cpuBuffer b.buffer
          [{ srcOffset := 0, dstOffset := 0, size := size.toNat }]] := by
  refine ⟨fun s => rfl, ?_⟩
  rw [← asUInt64_eq_toNat size h0 (h1.trans (by norm_num))]
  rfl

/-- C6 witness: instantiation at a concrete store of 600 bytes. -/
theorem bufferStore_single_copy_witness :
    (∀ s : Int, BufferGPU_Store buf0 [] 9 s =
        [Command.copyBuffer 9 10 [{ srcOffset := 0, dstOffset := 0, size := asUInt64 s }]]) ∧
      BufferGPU_Store buf0 [] 9 600 =
        [Command.copyBuffer 9 10 [{ srcOffset := 0, dstOffset := 0, size := 600 }]] :=
  bufferStore_single_copy buf0 [] 9 600 (by decide) (by decide)

/-- C7: the two barriers `TextureGPU::Store` records carry exactly the image
handle and subresource range cached in the view-descriptor at construction
time, and the very same two barrier payloads are recorded whatever command
buffer, staging handle, width and height the call receives. -/
theorem textureStore_barriers_from_cache (t : TextureGPU) (cmd : List Command)
    (cpuBuffer : Nat) (width height : Int) :
    ∃ b1 b2 c,
      TextureGPU_Store t cmd cpuBuffer width height =
        cmd ++
          [Command.pipelineBarrier VK_PIPELINE_STAGE_TOP_OF_PIPE_BIT
             VK_PIPELINE_STAGE_TRANSFER_BIT 0 [b1],
           c,
           Command.pipelineBarrier VK_PIPELINE_STAGE_TRANSFER_BIT
             VK_PIPELINE_STAGE_FRAGMENT_SHADER_BIT 0 [b2]] ∧
      b1.image = t.viewCreateInfo.image ∧
      b1.subresourceRange = t.viewCreateInfo.subresourceRange ∧
      b2.image = t.viewCreateInfo.image ∧
      b2.subresourceRange = t.viewCreateInfo.subresourceRange ∧
      (∀ (cmd' : List Command) (cpu' : Nat) (w' h' : Int), ∃ c',
        TextureGPU_Store t cmd' cpu' w' h' =
          cmd' ++
            [Command.pipelineBarrier VK_PIPELINE_STAGE_TOP_OF_PIPE_BIT
               VK_PIPELINE_STAGE_TRANSFER_BIT 0 [b1],
             c',
             Command.pipelineBarrier VK_PIPELINE_STAGE_TRANSFER_BIT
               VK_PIPELINE_STAGE_FRAGMENT_SHADER_BIT 0 [b2]]) := by
  exact ⟨_, _, _, rfl, rfl, rfl, rfl, rfl, fun cmd' cpu' w' h' => ⟨_, rfl⟩⟩

/-- C10: neither `Store` mutates its wrapper object: the returned object state
equals the input object field for field, and the only effect is appending to
the caller's command buffer (the input command buffer is a left factor of the
output one). -/
theorem store_no_mutation (b : BufferGPU) (t : TextureGPU) (cmdB cmdT : List Command)
    (cpuB cpuT : Nat) (size width height : Int) :
    (BufferGPU_StoreR b cmdB cpuB size).1 = b ∧
      (TextureGPU_StoreR t cmdT cpuT width height).1 = t ∧
      (BufferGPU_StoreR b cmdB cpuB size).2.take cmdB.length = cmdB ∧
      (TextureGPU_StoreR t cmdT cpuT width height).2.take cmdT.length = cmdT ∧
      (∃ added, (BufferGPU_StoreR b cmdB cpuB size).2 = cmdB ++ added) ∧
      (∃ added, (TextureGPU_StoreR t cmdT cpuT width height).2 = cmdT ++ added) :=
  ⟨rfl, rfl, List.take_left cmdB _, List.take_left cmdT _, ⟨_, rfl⟩, ⟨_, rfl⟩⟩

/-- Projection of the regions of a recorded buffer-to-image copy command. -/
def copyRegionsOfCommand : Command → List VkBufferImageCopy
  | Command.copyBufferToImage _ _ _ regions => regions
  | _ => []

/-- C2 counterexample: for the concrete wrapper `tex0` and the call
`Store(cmdSeq = [], stagingBufferHandle = 9, width = 2, height = 3)`, the
recorded copy region has `bufferRowLength = 2` and `bufferImageHeight = 3`,
not 0 as the claim states. -/
theorem textureStore_rowLength_not_zero :
    ((TextureGPU_Store tex0 [] 9 2 3)[1]?).map copyRegionsOfCommand =
      some [{ bufferOffset := 0, bufferRowLength := 2, bufferImageHeight := 3,
              imageSubresource := { aspectMask := 1, mipLevel := 0,
                                    baseArrayLayer := 0, layerCount := 1 },
              imageOffset := { x := 0, y := 0, z := 0 },
              imageExtent := { width := 2, height := 3, depth := 1 } }] ∧
      (2 : Nat) ≠ 0 ∧ (3 : Nat) ≠ 0 := by
  decide

/-- C2 amended: the recorded buffer-to-image copy sets `bufferRowLength` to
`width` and `bufferImageHeight` to `height` (rather than 0; since they equal
the copied extent this still denotes a tightly packed width x height x 1
region), and uses the cached aspect mask, mip level 0, base array layer 0,
layer count 1, image extent width x height x 1, buffer offset 0, image offset
0 and destination layout transfer-destination-optimal. -/
theorem textureStore_copy_region (t : TextureGPU) (cmd : List Command)
    (cpuBuffer : Nat) (width height : Int) (hw0 : 0 ≤ width) (hw : width < 2 ^ 31)
    (hh0 : 0 ≤ height) (hh : height < 2 ^ 31) :
    ∃ pre post,
      TextureGPU_Store t cmd cpuBuffer width height =
        cmd ++
          [pre,
           Command.copyBufferToImage cpuBuffer t.image
             VK_IMAGE_LAYOUT_TRANSFER_DST_OPTIMAL
             [{ bufferOffset := 0, bufferRowLength := width.toNat,
                bufferImageHeight := height.toNat,
                imageSubresource := { aspectMask := t.viewCreateInfo.subresourceRange.aspectMask,
                                      mipLevel := 0, baseArrayLayer := 0, layerCount := 1 },
                imageOffset := { x := 0, y := 0, z := 0 },
                imageExtent := { width := width.toNat, height := height.toNat, depth := 1 } }],
           post] := by
  have e1 : asUInt32 width = width.toNat :=
    asUInt32_eq_toNat width hw0 (hw.trans (by norm_num))
  have e2 : asUInt32 height = height.toNat :=
    asUInt32_eq_toNat height hh0 (hh.trans (by norm_num))
  refine
    ⟨Command.pipelineBarrier VK_PIPELINE_STAGE_TOP_OF_PIPE_BIT VK_PIPELINE_STAGE_TRANSFER_BIT 0
      [{ srcAccessMask := 0, dstAccessMask := VK_ACCESS_TRANSFER_WRITE_BIT,
         oldLayout := VK_IMAGE_LAYOUT_PREINITIALIZED,
         newLayout := VK_IMAGE_LAYOUT_TRANSFER_DST_OPTIMAL,
         image := t.viewCreateInfo.image,
         subresourceRange := t.viewCreateInfo.subresourceRange }],
     Command.pipelineBarrier VK_PIPELINE_STAGE_TRANSFER_BIT
       VK_PIPELINE_STAGE_FRAGMENT_SHADER_BIT 0
      [{ srcAccessMask := VK_ACCESS_TRANSFER_WRITE_BIT, dstAccessMask := 0,
         oldLayout := VK_IMAGE_LAYOUT_TRANSFER_DST_OPTIMAL,
         newLayout := VK_IMAGE_LAYOUT_SHADER_READ_ONLY_OPTIMAL,
         image := t.viewCreateInfo.image,
         subresourceRange := t.viewCreateInfo.subresourceRange }], ?_⟩
  simp only [TextureGPU_Store, TextureGPU_StoreR, e1, e2]

/-- C2 witness: instantiation at the concrete wrapper `tex0` with a 256 x 128
staging image. -/
theorem textureStore_copy_region_witness :
    ∃ pre post,
      TextureGPU_Store tex0 [] 9 256 128 =
        [] ++
          [pre,
           Command.copyBufferToImage 9 tex0.image
             VK_IMAGE_LAYOUT_TRANSFER_DST_OPTIMAL
             [{ bufferOffset := 0, bufferRowLength := (256 : Int).toNat,
                bufferImageHeight := (128 : Int).toNat,
                imageSubresource := { aspectMask := tex0.viewCreateInfo.subresourceRange.aspectMask,
                                      mipLevel := 0, baseArrayLayer := 0, layerCount := 1 },
                imageOffset := { x := 0, y := 0, z := 0 },
                imageExtent := { width := (256 : Int).toNat, height := (128 : Int).toNat,
                                 depth := 1 } }],
           post] :=
  textureStore_copy_region tex0 [] 9 256 128 (by decide) (by decide) (by decide) (by decide)

/-- C3 counterexample: for the concrete wrapper `tex0`, the destructor's trace
frees the backing memory first (index 0) and only then destroys the image
(index 1) and the view (index 2); so the image wrapper does not release its
capability-specific handles strictly before freeing the memory. -/
theorem textureDestroy_memory_first :
    TextureGPU_destroy tex0 =
      [ApiCall.freeMemory 11, ApiCall.destroyImage 20, ApiCall.destroyImageView 22] ∧
      ¬ callIdx (TextureGPU_destroy tex0) CallKind.destroyImage <
          callIdx (TextureGPU_destroy tex0) CallKind.freeMemory ∧
      ¬ callIdx (TextureGPU_destroy tex0) CallKind.destroyImageView <
          callIdx (TextureGPU_destroy tex0) CallKind.freeMemory := by
  decide

/-- C3 amended: `BufferGPU`'s destructor releases the buffer handle strictly
before freeing the backing memory; `TextureGPU`'s destructor instead frees the
backing memory first, then destroys the image handle, then the view handle. -/
theorem destroy_release_order (b : BufferGPU) (t : TextureGPU) :
    callIdx (BufferGPU_destroy b) CallKind.destroyBuffer <
        callIdx (BufferGPU_destroy b) CallKind.freeMemory ∧
      callIdx (TextureGPU_destroy t) CallKind.freeMemory = 0 ∧
      callIdx (TextureGPU_destroy t) CallKind.destroyImage = 1 ∧
      callIdx (TextureGPU_destroy t) CallKind.destroyImageView = 2 := by
  refine ⟨?_, rfl, rfl, rfl⟩
  show (0 : Nat) < 1
  decide

/-! Lemmas about the spec-modelled memory-type search. -/

theorem findMemoryTypeFrom_none_iff (l : List VkMemoryType) (start typeBits mask : Nat) :
    findMemoryTypeFrom l start typeBits mask = none ↔
      ∀ j, j < l.length →
        ¬ (typeBits.testBit (start + j) ∧ (l.getD j ⟨0⟩).propertyFlags &&& mask = mask) := by
  induction l generalizing start with
  | nil => simp [findMemoryTypeFrom]
  | cons t rest ih =>
    by_cases hc : typeBits.testBit start ∧ t.propertyFlags &&& mask = mask
    · simp only [findMemoryTypeFrom, if_pos hc]
      constructor
      · intro h
        exact absurd h (Option.some_ne_none _)
      · intro H
        have h0 := H 0 (Nat.succ_pos _)
        rw [Nat.add_zero] at h0
        exact absurd hc (by simpa using h0)
    · simp only [findMemoryTypeFrom, if_neg hc]
      rw [ih (start + 1)]
      constructor
      · intro H j hj
        cases j with
        | zero =>
          rw [Nat.add_zero]
          simpa using hc
        | succ j =>
          have hji : j < rest.length := by simpa using hj
          have := H j hji
          rw [show start + 1 + j = start + (j + 1) by omega] at this
          simpa using this
      · intro H j hj
        have := H (j + 1) (by simpa using hj)
        rw [show start + (j + 1) = start + 1 + j by omega] at this
        simpa using this

theorem findMemoryTypeFrom_some (l : List VkMemoryType) (start typeBits mask i : Nat)
    (h : findMemoryTypeFrom l start typeBits mask = some i) :
    ∃ j, j < l.length ∧ i = start + j ∧ typeBits.testBit i ∧
      (l.getD j ⟨0⟩).propertyFlags &&& mask = mask := by
  induction l generalizing start with
  | nil => simp [findMemoryTypeFrom] at h
  | cons t rest ih =>
    by_cases hc : typeBits.testBit start ∧ t.propertyFlags &&& mask = mask
    · simp only [findMemoryTypeFrom, if_pos hc, Option.some.injEq] at h
      subst h
      exact ⟨0, Nat.succ_pos _, by omega, hc.1, by simpa using hc.2⟩
    · simp only [findMemoryTypeFrom, if_neg hc] at h
      obtain ⟨j, hj, hi, ht, hf⟩ := ih (start + 1) h
      exact ⟨j + 1, by simpa using hj, by omega, ht, by simpa using hf⟩

theorem memory_type_from_properties_none_iff (props : VkPhysicalDeviceMemoryProperties)
    (typeBits : Nat) :
    memory_type_from_properties props typeBits VK_MEMORY_PROPERTY_DEVICE_LOCAL_BIT = none ↔
      ∀ i, ¬ compatibleMemoryType props typeBits i := by
  unfold memory_type_from_properties
  rw [findMemoryTypeFrom_none_iff]
  constructor
  · intro H i hi
    obtain ⟨hlen, ht, hf⟩ := hi
    have := H i hlen
    rw [Nat.zero_add] at this
    exact this ⟨ht, hf⟩
  · intro H j hj hcond
    rw [Nat.zero_add] at hcond
    exact H j ⟨hj, hcond.1, hcond.2⟩

theorem memory_type_from_properties_some_compatible
    (props : VkPhysicalDeviceMemoryProperties) (typeBits i : Nat)
    (h : memory_type_from_properties props typeBits VK_MEMORY_PROPERTY_DEVICE_LOCAL_BIT =
      some i) : compatibleMemoryType props typeBits i := by
  unfold memory_type_from_properties at h
  obtain ⟨j, hj, hi, ht, hf⟩ := findMemoryTypeFrom_some _ _ _ _ _ h
  rw [Nat.zero_add] at hi
  subst hi
  exact ⟨hj, ht, hf⟩

/-- C4: (spec-modelled helper) the memory-type lookup returns nothing exactly
when no memory type has its bit set in the requirement bitmask and the
device-local flag set (first conjunct); any index it returns satisfies both
conditions (second conjunct); when the lookup fails both constructions fail
fatally, producing no object (third and fourth conjuncts); and any successful
construction allocated at a memory-type index satisfying both conditions —
never an incompatible one (fifth and sixth conjuncts). -/
theorem memtype_unsatisfiable_fatal (dev : DeviceOracle) (d : Nat)
    (props : VkPhysicalDeviceMemoryProperties) (binfo : VkBufferCreateInfo)
    (iinfo : VkImageCreateInfo) (aspect : Nat) :
    (∀ typeBits,
      memory_type_from_properties props typeBits VK_MEMORY_PROPERTY_DEVICE_LOCAL_BIT = none ↔
        ∀ i, ¬ compatibleMemoryType props typeBits i) ∧
    (∀ typeBits i,
      memory_type_from_properties props typeBits VK_MEMORY_PROPERTY_DEVICE_LOCAL_BIT =
          some i → compatibleMemoryType props typeBits i) ∧
    ((∀ i, ¬ compatibleMemoryType props
        (dev.getBufferMemoryRequirements (dev.createBuffer binfo).2).memoryTypeBits i) →
      BufferGPU_construct dev d props binfo = none) ∧
    ((∀ i, ¬ compatibleMemoryType props
        (dev.getImageMemoryRequirements (dev.createImage iinfo).2).memoryTypeBits i) →
      TextureGPU_construct dev d props iinfo aspect = none) ∧
    (∀ b tr, BufferGPU_construct dev d props binfo = some (b, tr) →
      ∃ i, allocIndex tr = some i ∧ compatibleMemoryType props
        (dev.getBufferMemoryRequirements (dev.createBuffer binfo).2).memoryTypeBits i) ∧
    (∀ t tr, TextureGPU_construct dev d props iinfo aspect = some (t, tr) →
      ∃ i, allocIndex tr = some i ∧ compatibleMemoryType props
        (dev.getImageMemoryRequirements (dev.createImage iinfo).2).memoryTypeBits i) := by
  refine ⟨memory_type_from_properties_none_iff props,
    fun typeBits i => memory_type_from_properties_some_compatible props typeBits i,
    ?_, ?_, ?_, ?_⟩
  · intro H
    simp only [BufferGPU_construct]
    rw [(memory_type_from_properties_none_iff props _).mpr H]
  · intro H
    simp only [TextureGPU_construct]
    rw [(memory_type_from_properties_none_iff props _).mpr H]
  · intro b tr h
    simp only [BufferGPU_construct] at h
    rcases hmt : memory_type_from_properties props
        (dev.getBufferMemoryRequirements (dev.createBuffer binfo).2).memoryTypeBits
        VK_MEMORY_PROPERTY_DEVICE_LOCAL_BIT with _ | idx
    · rw [hmt] at h
      exact absurd h (by simp)
    · rw [hmt] at h
      simp only [Option.some.injEq, Prod.mk.injEq] at h
      obtain ⟨-, htr⟩ := h
      subst htr
      exact ⟨idx, rfl, memory_type_from_properties_some_compatible props _ idx hmt⟩
  · intro t tr h
    simp only [TextureGPU_construct] at h
    rcases hmt : memory_type_from_properties props
        (dev.getImageMemoryRequirements (dev.createImage iinfo).2).memoryTypeBits
        VK_MEMORY_PROPERTY_DEVICE_LOCAL_BIT with _ | idx
    · rw [hmt] at h
      exact absurd h (by simp)
    · rw [hmt] at h
      simp only [Option.some.injEq, Prod.mk.injEq] at h
      obtain ⟨-, htr⟩ := h
      subst htr
      exact ⟨idx, rfl, memory_type_from_properties_some_compatible props _ idx hmt⟩

/-- C4 witness: against the snapshot `propsBad`, which advertises no
device-local memory type, both constructions fail fatally; against `props0`
the buffer construction succeeds and its allocation used memory type 0, which
is compatible. -/
theorem memtype_unsatisfiable_fatal_witness :
    BufferGPU_construct dev0 1 propsBad binfo0 = none ∧
      TextureGPU_construct dev0 1 propsBad iinfo0 1 = none ∧
      (∃ i, allocIndex bufTrace0 = some i ∧ compatibleMemoryType props0
        (dev0.getBufferMemoryRequirements (dev0.createBuffer binfo0).2).memoryTypeBits i) :=
  ⟨(memtype_unsatisfiable_fatal dev0 1 propsBad binfo0 iinfo0 1).2.2.1
      (((memtype_unsatisfiable_fatal dev0 1 propsBad binfo0 iinfo0 1).1 _).mp (by decide)),
   (memtype_unsatisfiable_fatal dev0 1 propsBad binfo0 iinfo0 1).2.2.2.1
      (((memtype_unsatisfiable_fatal dev0 1 propsBad binfo0 iinfo0 1).1 _).mp (by decide)),
   (memtype_unsatisfiable_fatal dev0 1 props0 binfo0 iinfo0 1).2.2.2.2.1 buf0 bufTrace0
      (by decide)⟩

/-- C5: every successful construction of an image wrapper caches and creates a
2D view whose subresource range is exactly the supplied aspect with base mip
level 0, level count 1, base array layer 0, layer count 1, whose component
mapping is the identity red-to-red, green-to-green, blue-to-blue,
alpha-to-alpha mapping, and whose format is the descriptor's format — for
every image descriptor, hence regardless of the image dimensions in it. -/
theorem texture_view_parameters (dev : DeviceOracle) (d : Nat)
    (props : VkPhysicalDeviceMemoryProperties) (iinfo : VkImageCreateInfo)
    (aspect : Nat) (t : TextureGPU) (tr : List ApiCall)
    (h : TextureGPU_construct dev d props iinfo aspect = some (t, tr)) :
    t.viewCreateInfo.viewType = VK_IMAGE_VIEW_TYPE_2D ∧
      t.viewCreateInfo.format = iinfo.format ∧
      t.viewCreateInfo.components =
        { r := VK_COMPONENT_SWIZZLE_R, g := VK_COMPONENT_SWIZZLE_G,
          b := VK_COMPONENT_SWIZZLE_B, a := VK_COMPONENT_SWIZZLE_A } ∧
      t.viewCreateInfo.subresourceRange =
        { aspectMask := aspect, baseMipLevel := 0, levelCount := 1,
          baseArrayLayer := 0, layerCount := 1 } ∧
      t.viewCreateInfo.image = t.image ∧
      tr[4]? = some (ApiCall.createImageView t.viewCreateInfo t.imageView) := by
  simp only [TextureGPU_construct] at h
  rcases hmt : memory_type_from_properties props
      (dev.getImageMemoryRequirements (dev.createImage iinfo).2).memoryTypeBits
      VK_MEMORY_PROPERTY_DEVICE_LOCAL_BIT with _ | idx
  · rw [hmt] at h
    exact absurd h (by simp)
  · rw [hmt] at h
    simp only [Option.some.injEq, Prod.mk.injEq] at h
    obtain ⟨ht, htr⟩ := h
    subst ht
    subst htr
    exact ⟨rfl, rfl, rfl, rfl, rfl, rfl⟩

/-- C5 witness: instantiation at the concrete construction
`TextureGPU_construct dev0 1 props0 iinfo0 1`, which produces `tex0`. -/
theorem texture_view_parameters_witness :
    tex0.viewCreateInfo.viewType = VK_IMAGE_VIEW_TYPE_2D ∧
      tex0.viewCreateInfo.format = iinfo0.format ∧
      tex0.viewCreateInfo.components =
        { r := VK_COMPONENT_SWIZZLE_R, g := VK_COMPONENT_SWIZZLE_G,
          b := VK_COMPONENT_SWIZZLE_B, a := VK_COMPONENT_SWIZZLE_A } ∧
      tex0.viewCreateInfo.subresourceRange =
        { aspectMask := 1, baseMipLevel := 0, levelCount := 1,
          baseArrayLayer := 0, layerCount := 1 } ∧
      tex0.viewCreateInfo.image = tex0.image ∧
      texTrace0[4]? = some (ApiCall.createImageView tex0.viewCreateInfo tex0.imageView) :=
  texture_view_parameters dev0 1 props0 iinfo0 1 tex0 texTrace0 (by decide)

/-! Handle-lifecycle semantics: a trace of API calls acts on the multiset of
live handles, each tagged with its kind. -/

inductive HandleKind where
  | buffer
  | image
  | imageView
  | memory
  deriving DecidableEq

/-- Remove the first occurrence of a tagged handle from the live list. -/
def removeFirst : List (HandleKind × Nat) → HandleKind × Nat → List (HandleKind × Nat)
  | [], _ => []
  | p :: rest, q => if p = q then rest else p :: removeFirst rest q

/-- Effect of one API call on the list of live handles: creation and
allocation calls acquire a tagged handle, destruction and free calls release
one, queries and binds change nothing. -/
def stepCall (s : List (HandleKind × Nat)) : ApiCall → List (HandleKind × Nat)
  | .createBuffer _ h => s ++ [(HandleKind.buffer, h)]
  | .allocateMemory _ h => s ++ [(HandleKind.memory, h)]
  | .createImage _ h => s ++ [(HandleKind.image, h)]
  | .createImageView _ h => s ++ [(HandleKind.imageView, h)]
  | .destroyBuffer h => removeFirst s (HandleKind.buffer, h)
  | .freeMemory h => removeFirst s (HandleKind.memory, h)
  | .destroyImage h => removeFirst s (HandleKind.image, h)
  | .destroyImageView h => removeFirst s (HandleKind.imageView, h)
  | _ => s

/-- Run a trace over a list of live handles. -/
def runTrace : List ApiCall → List (HandleKind × Nat) → List (HandleKind × Nat)
  | [], s => s
  | c :: rest, s => runTrace rest (stepCall s c)

/-- C8: handles share one lifecycle.  Starting from no live handles, a
successful buffer construction leaves exactly the object's buffer and memory
handles live, and running the destructor afterwards leaves none; a successful
texture construction leaves exactly the object's image, memory and view
handles live, and running the destructor afterwards leaves none.  Neither
`Store` appears: it emits `Command`s, not handle-affecting API calls, so no
operation of either wrapper leaves a strict subset of the handles live. -/
theorem handles_one_lifecycle (dev : DeviceOracle) (d : Nat)
    (props : VkPhysicalDeviceMemoryProperties) (binfo : VkBufferCreateInfo)
    (iinfo : VkImageCreateInfo) (aspect : Nat) (b : BufferGPU) (trB : List ApiCall)
    (t : TextureGPU) (trT : List ApiCall)
    (hb : BufferGPU_construct dev d props binfo = some (b, trB))
    (ht : TextureGPU_construct dev d props iinfo aspect = some (t, trT)) :
    runTrace trB [] = [(HandleKind.buffer, b.buffer), (HandleKind.memory, b.memory)] ∧
      runTrace (BufferGPU_destroy b) (runTrace trB []) = [] ∧
      runTrace trT [] =
        [(HandleKind.image, t.image), (HandleKind.memory, t.memory),
         (HandleKind.imageView, t.imageView)] ∧
      runTrace (TextureGPU_destroy t) (runTrace trT []) = [] := by
  simp only [BufferGPU_construct] at hb
  rcases hmtb : memory_type_from_properties props
      (dev.getBufferMemoryRequirements (dev.createBuffer binfo).2).memoryTypeBits
      VK_MEMORY_PROPERTY_DEVICE_LOCAL_BIT with _ | idxb
  · rw [hmtb] at hb
    exact absurd hb (by simp)
  rw [hmtb] at hb
  simp only [Option.some.injEq, Prod.mk.injEq] at hb
  obtain ⟨hb1, hb2⟩ := hb
  subst hb1
  subst hb2
  simp only [TextureGPU_construct] at ht
  rcases hmtt : memory_type_from_properties props
      (dev.getImageMemoryRequirements (dev.createImage iinfo).2).memoryTypeBits
      VK_MEMORY_PROPERTY_DEVICE_LOCAL_BIT with _ | idxt
  · rw [hmtt] at ht
    exact absurd ht (by simp)
  rw [hmtt] at ht
  simp only [Option.some.injEq, Prod.mk.injEq] at ht
  obtain ⟨ht1, ht2⟩ := ht
  subst ht1
  subst ht2
  refine ⟨rfl, ?_, rfl, ?_⟩
  · simp [BufferGPU_destroy, runTrace, stepCall, removeFirst]
  · simp [TextureGPU_destroy, runTrace, stepCall, removeFirst]

/-- C8 witness: instantiation at the concrete constructions over `dev0`, which
produce `buf0` / `tex0` with the traces `bufTrace0` / `texTrace0`. -/
theorem handles_one_lifecycle_witness :
    runTrace bufTrace0 [] = [(HandleKind.buffer, 10), (HandleKind.memory, 11)] ∧
      runTrace (BufferGPU_destroy buf0) (runTrace bufTrace0 []) = [] ∧
      runTrace texTrace0 [] =
        [(HandleKind.image, 20), (HandleKind.memory, 11), (HandleKind.imageView, 22)] ∧
      runTrace (TextureGPU_destroy tex0) (runTrace texTrace0 []) = [] :=
  handles_one_lifecycle dev0 1 props0 binfo0 iinfo0 1 buf0 bufTrace0 tex0 texTrace0
    (by decide) (by decide)

/-- Two device oracles agree on every value (handle or memory-requirements
record) they produce, while their VkResult return codes — including those of
the two bind calls, whose only output is a VkResult — may differ arbitrarily. -/
structure DevAgree (d1 d2 : DeviceOracle) : Prop where
  createBuffer : ∀ info, (d1.createBuffer info).2 = (d2.createBuffer info).2
  getBufferMemoryRequirements :
    ∀ b, d1.getBufferMemoryRequirements b = d2.getBufferMemoryRequirements b
  allocateMemory : ∀ info, (d1.allocateMemory info).2 = (d2.allocateMemory info).2
  createImage : ∀ info, (d1.createImage info).2 = (d2.createImage info).2
  getImageMemoryRequirements :
    ∀ i, d1.getImageMemoryRequirements i = d2.getImageMemoryRequirements i
  createImageView : ∀ info, (d1.createImageView info).2 = (d2.createImageView info).2

/-- C9: both constructors discard every VkResult: replacing the device by one
returning arbitrarily different result codes (but the same produced values)
yields the identical object and identical call trace (first two conjuncts), so
each step runs unconditionally whether or not the calls report success, and
construction surfaces no error; moreover every successful construction
performs exactly the fixed call sequence create, query-requirements, allocate,
bind (and for the image also create-view), in that order (last two
conjuncts). -/
theorem construction_discards_results (d1 d2 : DeviceOracle) (d : Nat)
    (props : VkPhysicalDeviceMemoryProperties) (binfo : VkBufferCreateInfo)
    (iinfo : VkImageCreateInfo) (aspect : Nat) (hag : DevAgree d1 d2) :
    BufferGPU_construct d1 d props binfo = BufferGPU_construct d2 d props binfo ∧
      TextureGPU_construct d1 d props iinfo aspect =
        TextureGPU_construct d2 d props iinfo aspect ∧
      (∀ b tr, BufferGPU_construct d1 d props binfo = some (b, tr) →
        tr.map ApiCall.kind =
          [CallKind.createBuffer, CallKind.getBufferMemoryRequirements,
           CallKind.allocateMemory, CallKind.bindBufferMemory]) ∧
      (∀ t tr, TextureGPU_construct d1 d props iinfo aspect = some (t, tr) →
        tr.map ApiCall.kind =
          [CallKind.createImage, CallKind.getImageMemoryRequirements,
           CallKind.allocateMemory, CallKind.bindImageMemory,
           CallKind.createImageView]) := by
  refine ⟨?_, ?_, ?_, ?_⟩
  · simp only [BufferGPU_construct]
    rw [hag.createBuffer binfo, hag.getBufferMemoryRequirements]
    rcases memory_type_from_properties props
        (d2.getBufferMemoryRequirements (d2.createBuffer binfo).2).memoryTypeBits
        VK_MEMORY_PROPERTY_DEVICE_LOCAL_BIT with _ | idx
    · rfl
    · dsimp only
      rw [hag.allocateMemory]
  · simp only [TextureGPU_construct]
    rw [hag.createImage iinfo, hag.getImageMemoryRequirements]
    rcases memory_type_from_properties props
        (d2.getImageMemoryRequirements (d2.createImage iinfo).2).memoryTypeBits
        VK_MEMORY_PROPERTY_DEVICE_LOCAL_BIT with _ | idx
    · rfl
    · dsimp only
      rw [hag.allocateMemory, hag.createImageView]
  · intro b tr h
    simp only [BufferGPU_construct] at h
    rcases hmt : memory_type_from_properties props
        (d1.getBufferMemoryRequirements (d1.createBuffer binfo).2).memoryTypeBits
        VK_MEMORY_PROPERTY_DEVICE_LOCAL_BIT with _ | idx
    · rw [hmt] at h
      exact absurd h (by simp)
    · rw [hmt] at h
      simp only [Option.some.injEq, Prod.mk.injEq] at h
      obtain ⟨-, htr⟩ := h
      subst htr
      rfl
  · intro t tr h
    simp only [TextureGPU_construct] at h
    rcases hmt : memory_type_from_properties props
        (d1.getImageMemoryRequirements (d1.createImage iinfo).2).memoryTypeBits
        VK_MEMORY_PROPERTY_DEVICE_LOCAL_BIT with _ | idx
    · rw [hmt] at h
      exact absurd h (by simp)
    · rw [hmt] at h
      simp only [Option.some.injEq, Prod.mk.injEq] at h
      obtain ⟨-, htr⟩ := h
      subst htr
      rfl

/-- C9 witness: `dev0F` reports a failing VkResult on every call yet produces
the same values as `dev0`; both constructions come out identical, and the
successful buffer construction performed the four fixed calls in order. -/
theorem construction_discards_results_witness :
    BufferGPU_construct dev0 1 props0 binfo0 = BufferGPU_construct dev0F 1 props0 binfo0 ∧
      bufTrace0.map ApiCall.kind =
        [CallKind.createBuffer, CallKind.getBufferMemoryRequirements,
         CallKind.allocateMemory, CallKind.bindBufferMemory] :=
  ⟨(construction_discards_results dev0 dev0F 1 props0 binfo0 iinfo0 1
      ⟨fun _ => rfl, fun _ => rfl, fun _ => rfl, fun _ => rfl, fun _ => rfl,
       fun _ => rfl⟩).1,
   (construction_discards_results dev0 dev0F 1 props0 binfo0 iinfo0 1
      ⟨fun _ => rfl, fun _ => rfl, fun _ => rfl, fun _ => rfl, fun _ => rfl,
       fun _ => rfl⟩).2.2.1 buf0 bufTrace0 (by decide)⟩
